import Mathlib

/-!
Verification of the chat server in `chat_server.py` (class `ChatServer`).

The server is embedded shallowly. Protocol strings are lists of characters,
the registry `self.clients` is an insertion-ordered association list from
client name to socket handle (a `Nat`), and every server operation returns
the registry it leaves behind together with the list of observable transport
events it produced, in order. Socket `send` failures are modelled by a
static predicate `fails : Nat → Bool`: a send on a failing socket raises
(delivering nothing), exactly at the points where the source code can see an
exception; where the source wraps the send in its own try/except the
exception is swallowed, and where it does not, the exception aborts the
handler as in the source. Closing a socket is modelled as always producing
its `closed` event, since the source ignores any outcome of `close`.
-/

set_option autoImplicit false
set_option maxRecDepth 8000

namespace ChatSpec

/-- Protocol strings, modelled as lists of characters. -/
abbrev Str := List Char

/-- The registry `self.clients`: an insertion-ordered association list from
client name to socket handle. The source inserts only names that are absent,
so keys are unique and the list order is the dict iteration order. -/
abbrev Registry := List (Str × Nat)

/-- Observable transport effects of a server operation, in order: a
successful `send` of one frame to one socket, or a `close` of one socket. -/
inductive Event where
  | sent (sock : Nat) (frame : Str)
  | closed (sock : Nat)
deriving DecidableEq

/-- Key lookup, `name in self.clients` and `self.clients[name]`. -/
def lookupC : Registry → Str → Option Nat
  | [], _ => none
  | (m, s) :: rest, n => if m = n then some s else lookupC rest n

/-- Key deletion, `del self.clients[name]` (keys are unique, so removing
every occurrence agrees with removing the one stored entry). -/
def removeC : Registry → Str → Registry
  | [], _ => []
  | (m, s) :: rest, n =>
    if m = n then removeC rest n else (m, s) :: removeC rest n

/-- The source `message.split(":", 1)`: at most one split, on the first
colon. -/
def split1 : Str → List Str
  | [] => [[]]
  | c :: rest =>
    if c = ':' then [[], rest]
    else
      match split1 rest with
      | p :: ps => (c :: p) :: ps
      | [] => [[c]]

/-- The source `message.split(":", 2)`: at most two splits, on the first two
colons. -/
def split2 (s : Str) : List Str :=
  match split1 s with
  | [a, b] => a :: split1 b
  | l => l

/-- The source `message.startswith(p)`. -/
def startsWithC : Str → Str → Bool
  | [], _ => true
  | _ :: _, [] => false
  | p :: ps, c :: cs => if p = c then startsWithC ps cs else false

/-- Everything after the first colon. Under a startswith guard that
guarantees a colon this equals the source `message.split(":", 1)[1]`. -/
def afterColon : Str → Str
  | [] => []
  | c :: rest => if c = ':' then rest else afterColon rest

/-- The source `str.strip()`: drop whitespace from both ends. -/
def stripC (s : Str) : Str :=
  ((s.dropWhile Char.isWhitespace).reverse.dropWhile Char.isWhitespace).reverse

/-- The source `",".join(names)`. -/
def joinComma : List Str → Str
  | [] => []
  | [s] => s
  | s :: s2 :: rest => s ++ (',' :: joinComma (s2 :: rest))

/-- The apostrophe character (code 39), used by the target-not-found error
frame of the source. -/
def quoteChar : Char := Char.ofNat 39

/-- The frame `MESSAGE:<sender>:<content>`. -/
def msgFrame (sender content : Str) : Str :=
  "MESSAGE:".toList ++ (sender ++ (':' :: content))

/-- The frame `STATUS:<text>`. -/
def statusFrame (text : Str) : Str := "STATUS:".toList ++ text

/-- The frame sent when a unicast target is absent. -/
def notFoundFrame (target : Str) : Str :=
  "ERROR:Client ".toList ++ (quoteChar :: (target ++ (quoteChar :: " not found".toList)))

/-- The loop of `broadcast_status` (source lines 209-214): send one frame to
every entry, each send wrapped in its own try/except. -/
def sendAll (fails : Nat → Bool) : List (Str × Nat) → Str → List Event
  | [], _ => []
  | (_, s) :: rest, frame =>
    (if fails s then [] else [Event.sent s frame]) ++ sendAll fails rest frame

/-- `broadcast_status` (source lines 202-214): send `STATUS:<text>` to every
current registry entry; the registry is not mutated. -/
def broadcast_status (fails : Nat → Bool) (clients : Registry) (text : Str) :
    Registry × List Event :=
  (clients, sendAll fails clients (statusFrame text))

/-- The loop of `broadcast_message` (source lines 195-200): send the frame
to every entry whose name differs from the sender, swallowing per-recipient
send failures. -/
def broadcastSends (fails : Nat → Bool) (sender frame : Str) :
    List (Str × Nat) → List Event
  | [] => []
  | (n, s) :: rest =>
    (if n = sender then [] else if fails s then [] else [Event.sent s frame]) ++
      broadcastSends fails sender frame rest

/-- `broadcast_message` (source lines 185-200): send `MESSAGE:<sender>:<msg>`
to every entry except the sender; the registry is not mutated. -/
def broadcast_message (fails : Nat → Bool) (clients : Registry)
    (sender msg : Str) : Registry × List Event :=
  (clients, broadcastSends fails sender (msgFrame sender msg) clients)

/-- `send_message` (source lines 150-183), the unicast routine. If the
target is absent, the not-found error goes to the sender when the sender is
still present (source lines 160-168). Otherwise the message goes to the
target (line 173), then the ack to the sender if present (lines 175-176);
an exception from either of those sends is caught at line 177 and answered
with `ERROR:Failed to send message` to the sender (lines 179-183). With a
static per-socket failure model: when the target socket fails the sender
receives the failure error if its own socket works; when only the ack send
fails, the fallback error send fails as well and nothing more is
delivered. -/
def send_message (fails : Nat → Bool) (clients : Registry)
    (sender target msg : Str) : Registry × List Event :=
  match lookupC clients target with
  | none =>
    match lookupC clients sender with
    | none => (clients, [])
    | some s =>
      (clients, if fails s then [] else [Event.sent s (notFoundFrame target)])
  | some t =>
    if fails t then
      match lookupC clients sender with
      | none => (clients, [])
      | some s =>
        (clients,
          if fails s then []
          else [Event.sent s ("ERROR:Failed to send message".toList)])
    else
      (clients,
        Event.sent t (msgFrame sender msg) ::
          (match lookupC clients sender with
           | none => []
           | some s =>
             if fails s then [] else [Event.sent s ("MESSAGE_SENT".toList)]))

/-- The list comprehension of `send_client_list` (source line 142): all
registered names except the requester, in registry order. -/
def namesExcept : Registry → Str → List Str
  | [], _ => []
  | (n, _) :: rest, name =>
    if n = name then namesExcept rest name else n :: namesExcept rest name

/-- `send_client_list` (source lines 130-148): a no-op when the requester is
absent; otherwise send `CLIENT_LIST:` followed by the comma-joined names
except the requester, or the literal `No other clients` when that list is
empty, to the requester only, swallowing a send failure. -/
def send_client_list (fails : Nat → Bool) (clients : Registry) (name : Str) :
    Registry × List Event :=
  match lookupC clients name with
  | none => (clients, [])
  | some s =>
    let avail := namesExcept clients name
    let payload :=
      if avail = [] then "No other clients".toList else joinComma avail
    (clients,
      if fails s then []
      else [Event.sent s ("CLIENT_LIST:".toList ++ payload)])

/-- `remove_client` (source lines 216-233): when the name is present, close
its socket (line 226), delete the entry (line 229), and broadcast the leave
notice to the remaining entries (line 233); otherwise do nothing. -/
def remove_client (fails : Nat → Bool) (clients : Registry) (name : Str) :
    Registry × List Event :=
  match lookupC clients name with
  | none => (clients, [])
  | some s =>
    let clientsAfter := removeC clients name
    (clientsAfter,
      Event.closed s ::
        (broadcast_status fails clientsAfter
          (name ++ " left the server".toList)).2)

/-- One iteration of the Active-state dispatch (source lines 100-120). The
Bool result is true when a send on the handled client socket itself raised:
the sends at lines 108 and 120 are not individually guarded, so such an
exception aborts the receive loop. -/
def handle_command (fails : Nat → Bool) (clients : Registry) (sock : Nat)
    (name msg : Str) : Registry × List Event × Bool :=
  if startsWithC ("CHAT:".toList) msg then
    match split2 msg with
    | [_, tRaw, content] =>
      let r := send_message fails clients name (stripC tRaw) content
      (r.1, r.2, false)
    | _ =>
      if fails sock then (clients, [], true)
      else (clients, [Event.sent sock ("ERROR:Invalid CHAT format".toList)], false)
  else if msg = "LIST".toList then
    let r := send_client_list fails clients name
    (r.1, r.2, false)
  else if startsWithC ("BROADCAST:".toList) msg then
    let r := broadcast_message fails clients name (afterColon msg)
    (r.1, r.2, false)
  else
    if fails sock then (clients, [], true)
    else (clients, [Event.sent sock ("ERROR:Unknown command".toList)], false)

/-- The Active-state receive loop (source lines 95-121): process the
received frames in order; an exception from a send on the client socket ends
the loop early. The frame list is what successive recv calls delivered
before end-of-stream. -/
def client_loop (fails : Nat → Bool) (clients : Registry) (sock : Nat)
    (name : Str) : List Str → Registry × List Event
  | [] => (clients, [])
  | msg :: rest =>
    match handle_command fails clients sock name msg with
    | (clients1, evs, true) => (clients1, evs)
    | (clients1, evs, false) =>
      let r := client_loop fails clients1 sock name rest
      (r.1, evs ++ r.2)

/-- The handler finally block (source lines 126-128): `if client_name:` —
the empty string is falsy in the source language, so cleanup runs only when
the recorded name is nonempty. -/
def finally_cleanup (fails : Nat → Bool) (clients : Registry) (name : Str) :
    Registry × List Event :=
  if name = [] then (clients, []) else remove_client fails clients name

/-- `handle_client` (source lines 57-128), sequential model of one handler:
`msgs` lists the frames delivered by successive recv calls, ended by
end-of-stream or a transport error (both only end the list). The first frame
must be `REGISTER:<name>`; the recorded name is everything after the first
colon, stripped, and it is recorded before the conflict check (line 75), so
the finally block sees it on every later path. On a name conflict the error
is sent and the connection closed (lines 79-81); on success the entry is
inserted (line 82), `REGISTERED` is sent (line 85, unguarded, so its failure
aborts the handler), the join notice is broadcast (line 87), and the receive
loop runs; a first frame that is not a REGISTER gets `ERROR:Must register
first` and a close (lines 90-92) with no name recorded. -/
def handle_client (fails : Nat → Bool) (clients : Registry) (sock : Nat)
    (msgs : List Str) : Registry × List Event :=
  match msgs with
  | [] => (clients, [])
  | first :: rest =>
    if startsWithC ("REGISTER:".toList) first then
      let name := stripC (afterColon first)
      match lookupC clients name with
      | some _ =>
        if fails sock then finally_cleanup fails clients name
        else
          let f := finally_cleanup fails clients name
          (f.1,
            Event.sent sock ("ERROR:Name already taken".toList) ::
              Event.closed sock :: f.2)
      | none =>
        let clients1 := clients ++ [(name, sock)]
        if fails sock then finally_cleanup fails clients1 name
        else
          let joinEvs :=
            (broadcast_status fails clients1
              (name ++ " joined the server".toList)).2
          let l := client_loop fails clients1 sock name rest
          let f := finally_cleanup fails l.1 name
          (f.1, Event.sent sock ("REGISTERED".toList) :: (joinEvs ++ (l.2 ++ f.2)))
    else
      (clients,
        if fails sock then []
        else
          [Event.sent sock ("ERROR:Must register first".toList),
           Event.closed sock])

/-- Whole-server state for the shutdown routine: the registry and the
listening socket, when one is open. -/
structure ServerState where
  clients : Registry
  serverSock : Option Nat
deriving DecidableEq

/-- The loop of `stop` that closes every client socket (source lines
239-243). -/
def closeAll : Registry → List Event
  | [] => []
  | (_, s) :: rest => Event.closed s :: closeAll rest

/-- `stop` (source lines 235-252): under the registry lock, close every
client socket and clear the registry (lines 238-245); after releasing the
lock, close the listening socket when one is open (lines 247-251). -/
def stop (st : ServerState) : ServerState × List Event :=
  let clientEvs := closeAll st.clients
  let listenerEvs :=
    match st.serverSock with
    | none => []
    | some s => [Event.closed s]
  ({ clients := [], serverSock := st.serverSock }, clientEvs ++ listenerEvs)

/-! Helper lemmas about the string primitives and the send loops. -/

theorem startsWithC_append (p r : Str) : startsWithC p (p ++ r) = true := by
  induction p with
  | nil => rfl
  | cons c cs ih => simp [startsWithC, ih]

theorem split1_no_colon (s : Str) (h : ':' ∉ s) : split1 s = [s] := by
  induction s with
  | nil => rfl
  | cons c cs ih =>
    have hc : ¬c = ':' := fun e => h (e ▸ List.mem_cons_self c cs)
    have h2 : ':' ∉ cs := fun m => h (List.mem_cons_of_mem _ m)
    simp [split1, hc, ih h2]

theorem split1_append (l r : Str) (h : ':' ∉ l) :
    split1 (l ++ (':' :: r)) = [l, r] := by
  induction l with
  | nil => simp [split1]
  | cons c cs ih =>
    have hc : ¬c = ':' := fun e => h (e ▸ List.mem_cons_self c cs)
    have h2 : ':' ∉ cs := fun m => h (List.mem_cons_of_mem _ m)
    simp [split1, hc, ih h2]

theorem split2_one (l r : Str) (hl : ':' ∉ l) (hr : ':' ∉ r) :
    split2 (l ++ (':' :: r)) = [l, r] := by
  simp [split2, split1_append l r hl, split1_no_colon r hr]

theorem split2_two (l m r : Str) (hl : ':' ∉ l) (hm : ':' ∉ m) :
    split2 (l ++ (':' :: (m ++ (':' :: r)))) = [l, m, r] := by
  simp [split2, split1_append l (m ++ (':' :: r)) hl, split1_append m r hm]

theorem split2_chatFrame (t c : Str) (ht : ':' ∉ t) :
    split2 ("CHAT:".toList ++ (t ++ (':' :: c))) = ["CHAT".toList, t, c] := by
  have h : ("CHAT:".toList ++ (t ++ (':' :: c))) =
      ("CHAT".toList ++ (':' :: (t ++ (':' :: c)))) := rfl
  rw [h, split2_two "CHAT".toList t c (by decide) ht]

theorem split2_chatBad (bad : Str) (h : ':' ∉ bad) :
    split2 ("CHAT:".toList ++ bad) = ["CHAT".toList, bad] := by
  have e : ("CHAT:".toList ++ bad) = ("CHAT".toList ++ (':' :: bad)) := rfl
  rw [e, split2_one "CHAT".toList bad (by decide) h]

theorem lookupC_mem (r : Registry) (n : Str) (s : Nat)
    (h : lookupC r n = some s) : (n, s) ∈ r := by
  induction r with
  | nil => simp [lookupC] at h
  | cons p rest ih =>
    obtain ⟨m, s0⟩ := p
    by_cases hm : m = n
    · subst hm
      simp [lookupC] at h
      subst h
      exact List.mem_cons_self _ _
    · simp [lookupC, hm] at h
      exact List.mem_cons_of_mem _ (ih h)

theorem sendAll_mem (fails : Nat → Bool) (entries : List (Str × Nat))
    (frame : Str) (n : Str) (s : Nat)
    (hmem : (n, s) ∈ entries) (hf : fails s = false) :
    Event.sent s frame ∈ sendAll fails entries frame := by
  induction entries with
  | nil => simp at hmem
  | cons p rest ih =>
    obtain ⟨m, s0⟩ := p
    simp only [sendAll]
    rcases List.mem_cons.mp hmem with h | h
    · have hm : m = n := (Prod.ext_iff.mp h.symm).1
      have hs : s0 = s := (Prod.ext_iff.mp h.symm).2
      subst hm
      subst hs
      simp [hf]
    · exact List.mem_append_right _ (ih h)

theorem broadcastSends_eq (fails : Nat → Bool) (sender frame : Str)
    (entries : List (Str × Nat)) :
    broadcastSends fails sender frame entries =
      entries.filterMap (fun p =>
        if p.1 = sender then none
        else if fails p.2 then none
        else some (Event.sent p.2 frame)) := by
  induction entries with
  | nil => rfl
  | cons p rest ih =>
    obtain ⟨n, s⟩ := p
    by_cases h1 : n = sender <;> by_cases h2 : fails s <;>
      simp [broadcastSends, List.filterMap_cons, h1, h2, ih]

theorem broadcastSends_sock (fails : Nat → Bool) (sender frame : Str)
    (entries : List (Str × Nat)) (s : Nat) (f : Str)
    (h : Event.sent s f ∈ broadcastSends fails sender frame entries) :
    ∃ p, p ∈ entries ∧ p.2 = s ∧ p.1 ≠ sender := by
  rw [broadcastSends_eq] at h
  rcases List.mem_filterMap.mp h with ⟨p, hp, hfp⟩
  by_cases h1 : p.1 = sender
  · simp [h1] at hfp
  · by_cases h2 : fails p.2
    · simp [h1, h2] at hfp
    · rw [if_neg h1, if_neg h2] at hfp
      have h3 := Option.some.inj hfp
      injection h3 with h4 h5
      exact ⟨p, hp, h4, h1⟩

/-! Claim theorems. -/

/-- C1: counterexample. With A registered on socket 0, a new client on
socket 1 registers as B. Contrary to the claim that the newly registered
client receives no STATUS frame for its own join, socket 1 itself receives
STATUS:B joined the server: the source broadcasts after inserting the new
entry and the status broadcast covers every current entry. -/
theorem C1_counterexample :
    Event.sent 1 ("STATUS:B joined the server".toList) ∈
      (handle_client (fun _ => false) [("A".toList, 0)] 1
        ["REGISTER:B".toList]).2 := by
  decide

/-- C1 (amended): after a successful registration the join status notice is
broadcast to every entry of the post-insert registry — all previously
registered connections and also the newly registered client itself, whose
own socket (when its sends work) receives the STATUS frame for its own
join. -/
theorem C1_join_notice_all (fails : Nat → Bool) (clients : Registry)
    (sock : Nat) (first : Str) (rest : List Str)
    (hreg : startsWithC ("REGISTER:".toList) first = true)
    (hnew : lookupC clients (stripC (afterColon first)) = none)
    (hsock : fails sock = false) :
    ∃ tail,
      (handle_client fails clients sock (first :: rest)).2 =
        Event.sent sock ("REGISTERED".toList) ::
          (sendAll fails (clients ++ [(stripC (afterColon first), sock)])
              (statusFrame (stripC (afterColon first) ++
                " joined the server".toList)) ++ tail) ∧
      Event.sent sock (statusFrame (stripC (afterColon first) ++
          " joined the server".toList)) ∈
        sendAll fails (clients ++ [(stripC (afterColon first), sock)])
          (statusFrame (stripC (afterColon first) ++
            " joined the server".toList)) := by
  refine ⟨(client_loop fails (clients ++ [(stripC (afterColon first), sock)])
      sock (stripC (afterColon first)) rest).2 ++
      (finally_cleanup fails
        (client_loop fails (clients ++ [(stripC (afterColon first), sock)])
          sock (stripC (afterColon first)) rest).1
        (stripC (afterColon first))).2, ?_, ?_⟩
  · simp at hreg
    simp [handle_client, hreg, hnew, hsock, broadcast_status]
  · exact sendAll_mem fails _ _ (stripC (afterColon first)) sock
      (by simp) hsock

/-- C1 (amended, witness): the amended statement at the concrete input of
the counterexample — A on socket 0 already registered, B registering on
socket 1 with no failing sockets. -/
theorem C1_join_notice_all_witness :
    ∃ tail,
      (handle_client (fun _ => false) [("A".toList, 0)] 1
          ("REGISTER:B".toList :: [])).2 =
        Event.sent 1 ("REGISTERED".toList) ::
          (sendAll (fun _ => false)
              ([("A".toList, 0)] ++
                [(stripC (afterColon ("REGISTER:B".toList)), 1)])
              (statusFrame (stripC (afterColon ("REGISTER:B".toList)) ++
                " joined the server".toList)) ++ tail) ∧
      Event.sent 1 (statusFrame (stripC (afterColon ("REGISTER:B".toList)) ++
          " joined the server".toList)) ∈
        sendAll (fun _ => false)
          ([("A".toList, 0)] ++
            [(stripC (afterColon ("REGISTER:B".toList)), 1)])
          (statusFrame (stripC (afterColon ("REGISTER:B".toList)) ++
            " joined the server".toList)) :=
  C1_join_notice_all (fun _ => false) [("A".toList, 0)] 1
    ("REGISTER:B".toList) [] (by decide) (by decide) rfl

/-- C2: evaluation at the failing input. A REGISTER frame whose name part is
empty is accepted — REGISTERED is sent and an entry with the empty-string
key is inserted — but when the receive loop ends, the finally block skips
cleanup because the recorded name is falsy: the entry is still in the
registry, the transport is never closed, and no leave notice is broadcast,
contradicting the claim for a client the code accepted at registration. -/
theorem C2_empty_name_dangling :
    (handle_client (fun _ => false) [] 0 ["REGISTER:".toList]).1 =
      [(([] : Str), 0)] ∧
    Event.closed 0 ∉ (handle_client (fun _ => false) [] 0
      ["REGISTER:".toList]).2 ∧
    (handle_client (fun _ => false) [] 0 ["REGISTER:".toList]).2 =
      [Event.sent 0 ("REGISTERED".toList),
       Event.sent 0 ("STATUS: joined the server".toList)] := by
  decide

/-- C3: evaluation at the failing input. A REGISTER frame whose name part is
whitespace-only strips to the empty string, yet registration accepts it: the
handler ends with the empty string as a registry key, so a registry entry
with an empty name exists, contradicting the claim. -/
theorem C3_whitespace_name_registered :
    lookupC (handle_client (fun _ => false) [] 0
      ["REGISTER:   ".toList]).1 ([] : Str) = some 0 ∧
    (handle_client (fun _ => false) [] 0 ["REGISTER:   ".toList]).1 ≠ [] := by
  decide

/-- C4: counterexample. With client A on socket 0 and listening socket 9,
shutdown closes the client socket first and the listening socket last — the
opposite of the order the claim states, under which the event list would
have to be the listener close followed by the client close. -/
theorem C4_counterexample :
    (stop ⟨[("A".toList, 0)], some 9⟩).2 =
      [Event.closed 0, Event.closed 9] ∧
    (stop ⟨[("A".toList, 0)], some 9⟩).2 ≠
      [Event.closed 9, Event.closed 0] := by
  decide

/-- C4 (amended): on shutdown the server first, under the registry lock,
closes every live client connection and clears the registry, and then
closes the listening socket, whose close is the final cleanup event. -/
theorem C4_shutdown_order (st : ServerState) (s : Nat)
    (h : st.serverSock = some s) :
    stop st = ({ clients := [], serverSock := st.serverSock },
      closeAll st.clients ++ [Event.closed s]) := by
  simp [stop, h]

/-- C4 (amended, witness): the amended shutdown order at a concrete state
with one client on socket 0 and the listener on socket 9. -/
theorem C4_shutdown_order_witness :
    stop ⟨[("A".toList, 0)], some 9⟩ =
      ({ clients := [], serverSock := some 9 },
        closeAll [("A".toList, 0)] ++ [Event.closed 9]) :=
  C4_shutdown_order ⟨[("A".toList, 0)], some 9⟩ 9 rfl

/-- C5: evaluation at the failing input. With A registered on socket 0, a
second connection on socket 1 sends REGISTER:A. The server does reply
ERROR:Name already taken and close socket 1, but the handler recorded the
conflicting name before the check, so its finally block then runs the
removal routine for A: the victim entry is deleted (the registry ends empty,
size 0, not 1) and the socket of the legitimate client A is closed —
contradicting the claim that no registry mutation occurs. -/
theorem C5_duplicate_register_removes_victim :
    handle_client (fun _ => false) [("A".toList, 0)] 1
        ["REGISTER:A".toList] =
      ([], [Event.sent 1 ("ERROR:Name already taken".toList),
            Event.closed 1, Event.closed 0]) ∧
    ([] : Registry) ≠ [("A".toList, 0)] := by
  decide

/-- C6: the unicast routine. When the target is absent and the sender is
also absent, nothing happens; when only the target is absent, the sender
receives the target-not-found error; when both are present and both sockets
work, the target receives MESSAGE:<sender>:<content> and the sender then
receives MESSAGE_SENT; when the send to the target fails, the sender
receives ERROR:Failed to send message instead of the ack. In every case the
routine returns normally with the registry unchanged, so no write failure
propagates out of the routing call. -/
theorem C6_unicast (fails : Nat → Bool) (clients : Registry)
    (sender target msg : Str) :
    ((send_message fails clients sender target msg).1 = clients) ∧
    (lookupC clients target = none → lookupC clients sender = none →
      send_message fails clients sender target msg = (clients, [])) ∧
    (∀ s, lookupC clients target = none → lookupC clients sender = some s →
      fails s = false →
      send_message fails clients sender target msg =
        (clients, [Event.sent s (notFoundFrame target)])) ∧
    (∀ t s, lookupC clients target = some t →
      lookupC clients sender = some s → fails t = false → fails s = false →
      send_message fails clients sender target msg =
        (clients, [Event.sent t (msgFrame sender msg),
                   Event.sent s ("MESSAGE_SENT".toList)])) ∧
    (∀ t s, lookupC clients target = some t →
      lookupC clients sender = some s → fails t = true → fails s = false →
      send_message fails clients sender target msg =
        (clients, [Event.sent s ("ERROR:Failed to send message".toList)])) := by
  refine ⟨?_, ?_, ?_, ?_, ?_⟩
  · unfold send_message
    rcases h1 : lookupC clients target with _ | t
    · rcases h2 : lookupC clients sender with _ | s <;> simp
    · rcases h2 : lookupC clients sender with _ | s <;>
        by_cases h3 : fails t <;> simp [h3]
  all_goals intros
  all_goals simp_all [send_message]

/-- C6 (witness): with A on socket 0 and B on socket 1, both working, a
unicast from A to B delivers MESSAGE:A:hello to socket 1 and MESSAGE_SENT
to socket 0. -/
theorem C6_unicast_witness :
    send_message (fun _ => false) [("A".toList, 0), ("B".toList, 1)]
        ("A".toList) ("B".toList) ("hello".toList) =
      ([("A".toList, 0), ("B".toList, 1)],
       [Event.sent 1 (msgFrame ("A".toList) ("hello".toList)),
        Event.sent 0 ("MESSAGE_SENT".toList)]) :=
  (C6_unicast (fun _ => false) [("A".toList, 0), ("B".toList, 1)]
      ("A".toList) ("B".toList) ("hello".toList)).2.2.2.1 1 0
    (by decide) (by decide) rfl rfl

/-- C7: CHAT frame parsing. A frame CHAT:<target>:<content> is split on its
first two colon separators only, so the delivered content is everything
after the second separator and may itself contain colons: the dispatch
routes it as a unicast from the handled client to the stripped target with
that content, unchanged. A CHAT frame with fewer than two separators is
answered with ERROR:Invalid CHAT format on the client socket and the
receive loop continues with the same registry — no state change, no
registry mutation, no close. -/
theorem C7_chat_split (fails : Nat → Bool) (clients : Registry) (sock : Nat)
    (name t c bad : Str) (rest : List Str)
    (ht : ':' ∉ t) (hbad : ':' ∉ bad) (hsock : fails sock = false) :
    (handle_command fails clients sock name
        ("CHAT:".toList ++ (t ++ (':' :: c))) =
      ((send_message fails clients name (stripC t) c).1,
       (send_message fails clients name (stripC t) c).2, false)) ∧
    (client_loop fails clients sock name
        (("CHAT:".toList ++ bad) :: rest) =
      ((client_loop fails clients sock name rest).1,
       Event.sent sock ("ERROR:Invalid CHAT format".toList) ::
         (client_loop fails clients sock name rest).2)) := by
  constructor
  · simp only [handle_command, startsWithC_append, split2_chatFrame t c ht]
    rfl
  · simp only [client_loop, handle_command, startsWithC_append,
      split2_chatBad bad hbad, hsock]
    rfl

/-- C7 (witness): with A on socket 0 registered alone, the frame CHAT:A:x:y
routes content x:y (which contains a colon) to A, and the malformed frame
CHAT:A (one separator) is answered with the format error while the loop
goes on to serve a later frame. -/
theorem C7_chat_split_witness :
    (handle_command (fun _ => false) [("A".toList, 0)] 0 ("A".toList)
        ("CHAT:".toList ++ ("A".toList ++ (':' :: "x:y".toList))) =
      ((send_message (fun _ => false) [("A".toList, 0)] ("A".toList)
          (stripC ("A".toList)) ("x:y".toList)).1,
       (send_message (fun _ => false) [("A".toList, 0)] ("A".toList)
          (stripC ("A".toList)) ("x:y".toList)).2, false)) ∧
    (client_loop (fun _ => false) [("A".toList, 0)] 0 ("A".toList)
        (("CHAT:".toList ++ "A".toList) :: ["LIST".toList]) =
      ((client_loop (fun _ => false) [("A".toList, 0)] 0 ("A".toList)
          ["LIST".toList]).1,
       Event.sent 0 ("ERROR:Invalid CHAT format".toList) ::
         (client_loop (fun _ => false) [("A".toList, 0)] 0 ("A".toList)
           ["LIST".toList]).2)) :=
  C7_chat_split (fun _ => false) [("A".toList, 0)] 0 ("A".toList)
    ("A".toList) ("x:y".toList) ("A".toList) ["LIST".toList]
    (by decide) (by decide) rfl

/-- C8: the broadcast routine leaves the registry unchanged and sends
MESSAGE:<sender>:<content> to exactly the entries whose name differs from
the sender and whose socket works: every such entry receives it regardless
of failures at other recipients (a per-recipient failure is swallowed and
does not prevent the remaining sends), and when the socket handles of the
entries are pairwise distinct the sender receives nothing from the call. -/
theorem C8_broadcast (fails : Nat → Bool) (clients : Registry)
    (sender msg : Str) :
    ((broadcast_message fails clients sender msg).1 = clients) ∧
    ((broadcast_message fails clients sender msg).2 =
      clients.filterMap (fun p =>
        if p.1 = sender then none
        else if fails p.2 then none
        else some (Event.sent p.2 (msgFrame sender msg)))) ∧
    (∀ n s, (n, s) ∈ clients → n ≠ sender → fails s = false →
      Event.sent s (msgFrame sender msg) ∈
        (broadcast_message fails clients sender msg).2) ∧
    (List.Pairwise (fun p q => p.2 ≠ q.2) clients →
      ∀ s, lookupC clients sender = some s →
        ∀ f, Event.sent s f ∉ (broadcast_message fails clients sender msg).2) := by
  refine ⟨rfl, broadcastSends_eq fails sender (msgFrame sender msg) clients,
    ?_, ?_⟩
  · intro n s hmem hne hf
    have he := broadcastSends_eq fails sender (msgFrame sender msg) clients
    show Event.sent s (msgFrame sender msg) ∈
      broadcastSends fails sender (msgFrame sender msg) clients
    rw [he]
    exact List.mem_filterMap.mpr ⟨(n, s), hmem, by simp [hne, hf]⟩
  · intro hpw s hs f hmem
    obtain ⟨p, hp, hps, hpn⟩ :=
      broadcastSends_sock fails sender (msgFrame sender msg) clients s f hmem
    have hq : (sender, s) ∈ clients := lookupC_mem clients sender s hs
    have hsym : Symmetric (fun p q : Str × Nat => p.2 ≠ q.2) :=
      fun _ _ h e => h e.symm
    have hne : p ≠ (sender, s) := fun e => hpn (by rw [e])
    exact (hpw.forall hsym hp hq hne) hps

/-- C8 (witness): sender A on socket 0 with B on socket 1 (whose sends
fail) and C on socket 2: C still receives MESSAGE:A:hi even though the send
to B fails. -/
theorem C8_broadcast_witness :
    Event.sent 2 (msgFrame ("A".toList) ("hi".toList)) ∈
      (broadcast_message (fun s => decide (s = 1))
        [("A".toList, 0), ("B".toList, 1), ("C".toList, 2)]
        ("A".toList) ("hi".toList)).2 :=
  (C8_broadcast (fun s => decide (s = 1))
      [("A".toList, 0), ("B".toList, 1), ("C".toList, 2)]
      ("A".toList) ("hi".toList)).2.2.1 ("C".toList) 2
    (by decide) (by decide) rfl

/-- C9: on a LIST request from a registered requester whose socket works,
the server sends to that requester, and to that requester only, the frame
CLIENT_LIST: followed by the comma-joined names of all other registered
entries in registry order, or the literal No other clients when there is no
other name; the registry is unchanged. -/
theorem C9_client_list (fails : Nat → Bool) (clients : Registry)
    (name : Str) (s : Nat)
    (hmem : lookupC clients name = some s) (hs : fails s = false) :
    send_client_list fails clients name =
      (clients,
       [Event.sent s ("CLIENT_LIST:".toList ++
          (if namesExcept clients name = [] then "No other clients".toList
           else joinComma (namesExcept clients name)))]) := by
  simp [send_client_list, hmem, hs]

/-- C9 (witness): the sole registered client A requests the list and
receives CLIENT_LIST:No other clients. -/
theorem C9_client_list_witness :
    send_client_list (fun _ => false) [("A".toList, 0)] ("A".toList) =
      ([("A".toList, 0)],
       [Event.sent 0 ("CLIENT_LIST:No other clients".toList)]) := by
  have h := C9_client_list (fun _ => false) [("A".toList, 0)] ("A".toList) 0
    (by decide) rfl
  simpa using h

/-- C10: self-unicast is permitted. For a registered client whose socket
works, a unicast whose sender equals its target is not rejected: the client
receives MESSAGE:<name>:<msg> followed by MESSAGE_SENT, since the routine
applies no sender-equals-target check. -/
theorem C10_self_unicast (fails : Nat → Bool) (clients : Registry)
    (a msg : Str) (s : Nat)
    (ha : lookupC clients a = some s) (hs : fails s = false) :
    send_message fails clients a a msg =
      (clients, [Event.sent s (msgFrame a msg),
                 Event.sent s ("MESSAGE_SENT".toList)]) := by
  simp [send_message, ha, hs]

/-- C10 (witness): sole client A on socket 0 sends to itself and receives
its own message followed by the ack. -/
theorem C10_self_unicast_witness :
    send_message (fun _ => false) [("A".toList, 0)] ("A".toList)
        ("A".toList) ("hey".toList) =
      ([("A".toList, 0)],
       [Event.sent 0 (msgFrame ("A".toList) ("hey".toList)),
        Event.sent 0 ("MESSAGE_SENT".toList)]) :=
  C10_self_unicast (fun _ => false) [("A".toList, 0)] ("A".toList)
    ("hey".toList) 0 (by decide) rfl

end ChatSpec
